import Mathlib

/-!
Verification development for the `func_redis` Asterisk module
(src/func_redis.c).  The module's own code (configuration loading,
connection management, the four dialplan function adapters and the four
CLI handlers) is embedded shallowly below.  The external collaborators
named by the design document (the Redis store, the hiredis client, the
host platform's argument splitter, variable binder, logger and CLI
printer) are modelled from the design document's description of their
interfaces; each such definition carries a `Modelled from the spec`
comment.  Observable behaviour (commands sent, log lines, variable
bindings, CLI output, lock usage, handle lifecycle) is recorded in an
event trace.
-/

set_option linter.unusedVariables false

namespace FuncRedis

/-- C `atoi` on the decimal prefix of a string: skip leading spaces, read an
optional sign and then a run of digits; any other input contributes 0. -/
def digitsToInt : List Char → Int → Int
  | [], acc => acc
  | c :: t, acc =>
      if c.isDigit then digitsToInt t (acc * 10 + (Int.ofNat (c.toNat - 48)))
      else acc

/-- C `atoi`, used by `load_config` on the `port` and `timeout` fields. -/
def atoi (s : String) : Int :=
  match s.data.dropWhile (fun c => c = ' ') with
  | '-' :: t => - (digitsToInt t 0)
  | '+' :: t => digitsToInt t 0
  | t => digitsToInt t 0

/-- Splitter worker: accumulate until a comma, emit, continue. -/
def splitCommaAux : List Char → List Char → List String
  | [], acc => [String.mk acc.reverse]
  | c :: t, acc =>
      if c = ',' then String.mk acc.reverse :: splitCommaAux t []
      else splitCommaAux t (c :: acc)

/-- Modelled from the spec: the host platform macro `AST_STANDARD_APP_ARGS`
splits an adapter's parenthesized argument string into comma-separated
fields (spec 4.4: each adapter "requires its argument string to split into
exactly the allowed count" of comma-separated fields). -/
def separateArgs (s : String) : List String :=
  splitCommaAux s.data []

/-- Modelled from the spec (3, 4.3): a reply from the store is one of
nil/absent, error, string value, integer value, or an array of replies. -/
inductive Reply where
  | nil
  | error (msg : String)
  | str (s : String)
  | int (n : Int)
  | arr (elems : List Reply)


/-- hiredis `reply->str`: meaningful for string/status/error replies; for the
other reply kinds the module would read a null pointer, modelled as "". -/
def Reply.strField : Reply → String
  | .str s => s
  | .error m => m
  | _ => ""

/-- hiredis `reply->integer`: meaningful for integer replies, 0 otherwise. -/
def Reply.intField : Reply → Int
  | .int n => n
  | _ => 0

/-- The C test `reply->type == REDIS_REPLY_NIL` lifted to the possibly-NULL
reply pointer. -/
def isNilReply : Option Reply → Bool
  | some .nil => true
  | _ => false

/-- The commands this module can format and send (plus `select`, which is
named by claim C10 precisely because the module never issues it). -/
inductive RedisCmd where
  | auth (pw : String)
  | get (key : String)
  | hget (key field : String)
  | set (key value : String)
  | hset (key field value : String)
  | existsCmd (key : String)
  | del (key : String)
  | publish (ch msg : String)
  | keys (pat : String)
  | hkeys (key : String)
  | bgsave
  | select (db : String)


/-- The exact command text, as formatted by the C format strings and logged
verbatim at debug level by the `redisLoggedCommand` macro. -/
def cmdText : RedisCmd → String
  | .auth pw => "AUTH " ++ pw
  | .get k => "GET " ++ k
  | .hget k f => "HGET " ++ k ++ " " ++ f
  | .set k v => "SET " ++ k ++ " " ++ v
  | .hset k f v => "HSET " ++ k ++ " " ++ f ++ " " ++ v
  | .existsCmd k => "EXISTS " ++ k
  | .del k => "DEL " ++ k
  | .publish c m => "PUBLISH " ++ c ++ " " ++ m
  | .keys p => "KEYS " ++ p
  | .hkeys k => "HKEYS " ++ k
  | .bgsave => "BGSAVE"
  | .select d => "SELECT " ++ d

/-- Modelled from the spec (6, glossary): the external key-value store.
`kv` holds plain keys, `hkv` holds (hash, field, value) triples,
`okPasswords` are the passwords the store accepts on AUTH, `subs` gives the
subscriber count per channel, and `transportFail` marks the store as
unreachable (connection or transport-level failure). -/
structure Store where
  kv : List (String × String)
  hkv : List (String × String × String)
  okPasswords : List String
  subs : List (String × Nat)
  transportFail : Bool


def emptyStore : Store :=
  { kv := [], hkv := [], okPasswords := [], subs := [], transportFail := false }

def kvLookup : List (String × String) → String → Option String
  | [], _ => none
  | (a, v) :: t, k => if a = k then some v else kvLookup t k

def hkvLookup : List (String × String × String) → String → String → Option String
  | [], _, _ => none
  | (a, b, v) :: t, k, f => if a = k ∧ b = f then some v else hkvLookup t k f

def natLookup : List (String × Nat) → String → Nat
  | [], _ => 0
  | (a, n) :: t, k => if a = k then n else natLookup t k

/-- Reads a glob character class up to the closing bracket, returning the
class members and the rest of the pattern. -/
def splitClass : List Char → List Char × List Char
  | [] => ([], [])
  | c :: t => if c = ']' then ([], t)
              else
                let r := splitClass t
                (c :: r.1, r.2)

/-- Modelled from the spec (4.5): Redis glob-style matching for `KEYS` --
`?` any one char, `*` any run, `[ae]` a character class. -/
def globMatch : List Char → List Char → Bool
  | [], [] => true
  | [], _ :: _ => false
  | '*' :: p, [] => globMatch p []
  | '*' :: p, c :: s => globMatch p (c :: s) || globMatch ('*' :: p) s
  | '?' :: _, [] => false
  | '?' :: p, _ :: s => globMatch p s
  | '[' :: _, [] => false
  | '[' :: p, c :: s =>
      let cl := splitClass p
      (c ∈ cl.1) && globMatch cl.2 s
  | _ :: _, [] => false
  | a :: p, c :: s => (a = c) && globMatch p s
termination_by p s => (s.length, p.length)

/-- Modelled from the spec (2, 4.3): how the store answers each command.
Absence is a nil (GET/HGET) or integer-0 (EXISTS/DEL) reply; a rejected
AUTH is an error reply; none of these is a transport-level failure. -/
def storeReply (st : Store) (c : RedisCmd) : Reply × Store :=
  match c with
  | .auth pw =>
      if pw ∈ st.okPasswords then (.str "OK", st)
      else (.error "ERR invalid password", st)
  | .get k =>
      match kvLookup st.kv k with
      | some v => (.str v, st)
      | none => (.nil, st)
  | .hget k f =>
      match hkvLookup st.hkv k f with
      | some v => (.str v, st)
      | none => (.nil, st)
  | .set k v =>
      (.str "OK", { st with kv := (k, v) :: st.kv.filter (fun p => p.1 != k) })
  | .hset k f v =>
      (.int (if (hkvLookup st.hkv k f).isSome then 0 else 1),
       { st with hkv := (k, f, v) :: st.hkv.filter (fun p => !(p.1 == k && p.2.1 == f)) })
  | .existsCmd k =>
      (.int (if (kvLookup st.kv k).isSome then 1 else 0), st)
  | .del k =>
      (.int (if (kvLookup st.kv k).isSome then 1 else 0),
       { st with kv := st.kv.filter (fun p => p.1 != k) })
  | .publish ch _ =>
      (.int (Int.ofNat (natLookup st.subs ch)), st)
  | .keys pat =>
      (.arr ((st.kv.filter (fun p => globMatch pat.data p.1.data)).map (fun p => Reply.str p.1)), st)
  | .hkeys k =>
      (.arr ((st.hkv.filter (fun p => p.1 == k)).map (fun p => Reply.str p.2.1)), st)
  | .bgsave => (.str "Background saving started", st)
  | .select _ => (.str "OK", st)

/-- The hiredis `redisContext` as the module sees it: either the NULL
pointer or a live context with its `err` field. -/
inductive Ctx where
  | null
  | conn (err : Nat)


/-- The C test `redis == NULL || redis->err != 0`. -/
def Ctx.hasErr : Ctx → Bool
  | .null => true
  | .conn e => e != 0

/-- Result of one `redisCommand` call: the reply (NULL on failure), the
context afterwards, and the store afterwards. -/
structure CmdRes where
  reply : Option Reply
  ctx : Ctx
  store : Store


/-- Modelled from the spec (4.3): `redisCommand` formats and sends one
command, blocks for the reply and classifies it.  A transport failure
yields no reply and marks the context's `err`; an error reply from the
store (e.g. a rejected AUTH) is a normal classified reply and leaves the
context's `err` untouched ("a failure surfaces to the caller as a
classified Error reply or a transport-level error"). -/
def redisCommand (ctx : Ctx) (st : Store) (c : RedisCmd) : CmdRes :=
  match ctx with
  | .null => { reply := none, ctx := .null, store := st }
  | .conn e =>
      if e ≠ 0 then { reply := none, ctx := .conn e, store := st }
      else if st.transportFail = true then { reply := none, ctx := .conn 1, store := st }
      else { reply := some (storeReply st c).1, ctx := .conn 0, store := (storeReply st c).2 }

/-- Modelled from the spec (4.2): `redisConnectWithTimeout` fails (the
handle reports an error) exactly when the store is unreachable.  The
hostname, port and timeout actually passed are recorded by the caller in
the trace. -/
def redisConnectWithTimeout (_host : String) (_port : Int) (_tmoSec : Int) (st : Store) : Ctx :=
  if st.transportFail = true then .conn 1 else .conn 0

/-- Observable events: commands sent over the handle, handle lifecycle,
lock usage, writes to the module's configuration globals, log lines,
channel-variable bindings and CLI output. -/
inductive Event where
  | lock
  | unlock
  | setHostname (v : String)
  | setPort (v : Int)
  | setDbname (v : String)
  | setPassword (v : String)
  | freeHandle
  | connectWithTimeout (host : String) (port : Int) (timeoutSec : Int)
  | setHandle
  | cmd (c : RedisCmd)
  | logWarn (msg : String)
  | logErr (msg : String)
  | logDebug (msg : String)
  | logVerb (msg : String)
  | setVar (chan name value : String)
  | cliOut (line : String)


/-- The commands a trace sends to the store, in order. -/
def cmdEvents (tr : List Event) : List RedisCmd :=
  tr.filterMap fun e =>
    match e with
    | .cmd c => some c
    | _ => none

/-- The (name, value) channel-variable bindings a trace performs, in order. -/
def setVarEvents (tr : List Event) : List (String × String) :=
  tr.filterMap fun e =>
    match e with
    | .setVar _ n v => some (n, v)
    | _ => none

/-- The lines a trace prints to the CLI, in order. -/
def cliOutLines (tr : List Event) : List String :=
  tr.filterMap fun e =>
    match e with
    | .cliOut s => some s
    | _ => none

def isLockEvent : Event → Bool
  | .lock => true
  | .unlock => true
  | _ => false

def isConfigWrite : Event → Bool
  | .setHostname _ => true
  | .setPort _ => true
  | .setDbname _ => true
  | .setPassword _ => true
  | _ => false

def isHandleMutation : Event → Bool
  | .freeHandle => true
  | .connectWithTimeout _ _ _ => true
  | .setHandle => true
  | _ => false

/-- A mutation of the process-wide shared state (configuration globals or
the connection handle). -/
def sharedMutation (e : Event) : Bool :=
  isConfigWrite e || isHandleMutation e

def isSelectEvent : Event → Bool
  | .cmd (.select _) => true
  | _ => false

/-- The events of a trace that occur while the lock is NOT held (depth 0),
scanning left to right from the given lock depth. -/
def eventsOutsideLock : List Event → Nat → List Event
  | [], _ => []
  | Event.lock :: t, d => eventsOutsideLock t (d + 1)
  | Event.unlock :: t, d => eventsOutsideLock t (d - 1)
  | e :: t, d => (if d = 0 then [e] else []) ++ eventsOutsideLock t d

/-- The module's file-scope configuration globals (`hostname`, `port`,
`dbname`, `password` in func_redis.c).  The fifth file-scope global, the
connection handle `redis`, is carried separately as a `Ctx`. -/
structure ModuleState where
  hostname : String
  port : Int
  dbname : String
  password : String

/-- The C initializers of the globals: empty strings and port 6379. -/
def initModuleState : ModuleState :=
  { hostname := "", port := 6379, dbname := "", password := "" }

/-- The file-scope `static const struct timeval timeout;` -- never written
(the identically named local in `load_config` shadows it), hence always the
zero-initialized 0 seconds. -/
def timeoutGlobal : Int := 0

/-- Modelled from the spec (4.1): the external config source, as the module
reads it -- presence/absence of each named field in section `general`, plus
whether the file loaded at all (`CONFIG_STATUS_FILEMISSING` /
`CONFIG_STATUS_FILEINVALID` make `status` false). -/
structure ConfFile where
  status : Bool
  hostname : Option String
  port : Option String
  dbname : Option String
  password : Option String
  timeout : Option String

/-- Result of `load_config`: its return value, the configuration globals
after the call, the value of the shadowing local `struct timeval timeout`
(computed and then discarded by the C), and the trace. -/
structure LoadResult where
  ret : Int
  state : ModuleState
  localTimeout : Option Int
  trace : List Event

/-- Embeds `load_config` (func_redis.c:138-201): on a loadable config file,
takes the lock, copies each field into the globals (warning and using the
default when absent: hostname "127.0.0.1", port "6379", dbname "asterisk",
password "", timeout "5"), and unlocks.  The parsed timeout lands in a
local variable that shadows the const global and is dropped. -/
def load_config (prev : ModuleState) (cf : ConfFile) : LoadResult :=
  if cf.status = false then
    { ret := -1, state := prev, localTimeout := none,
      trace := [.logErr "Unable to load config func_redis.conf"] }
  else
    let hp : List Event × String :=
      match cf.hostname with
      | some v => ([], v)
      | none => ([.logWarn "No redis hostname, using localhost as default."], "127.0.0.1")
    let pp : List Event × String :=
      match cf.port with
      | some v => ([], v)
      | none => ([.logWarn "No redis port found, using 6379 as default."], "6379")
    let dp : List Event × String :=
      match cf.dbname with
      | some v => ([], v)
      | none => ([.logWarn "No redis database name found, using asterisk as default."], "asterisk")
    let wp : List Event × String :=
      match cf.password with
      | some v => ([], v)
      | none => ([.logWarn "No redis password found, disabling authentication."], "")
    let tp : List Event × String :=
      match cf.timeout with
      | some v => ([], v)
      | none => ([.logWarn "No redis timeout found, using 5 seconds as default."], "5")
    { ret := 1,
      state := { hostname := hp.2, port := atoi pp.2, dbname := dp.2, password := wp.2 },
      localTimeout := some (atoi tp.2),
      trace := [Event.lock]
        ++ hp.1 ++ [Event.setHostname hp.2]
        ++ pp.1 ++ [Event.setPort (atoi pp.2)]
        ++ dp.1 ++ [Event.setDbname dp.2]
        ++ wp.1 ++ [Event.setPassword wp.2]
        ++ tp.1
        ++ [Event.logVerb "Redis config loaded.", Event.unlock] }

/-- Result of `redis_connect`: return value, handle, store, trace. -/
structure ConnectResult where
  ret : Int
  ctx : Ctx
  store : Store
  trace : List Event

/-- Embeds `redis_connect` (func_redis.c:203-230): frees any previous
handle, connects with the global (zero) timeout, fails if the handle is
NULL or reports an error, then -- only when the configured password is
non-empty -- sends AUTH and fails if the handle reports an error
afterwards.  No locking anywhere in this function. -/
def redis_connect (ms : ModuleState) (ctx : Ctx) (st : Store) : ConnectResult :=
  let freeEv : List Event :=
    match ctx with
    | .null => []
    | .conn _ => [.freeHandle]
  let ctx2 := redisConnectWithTimeout ms.hostname ms.port timeoutGlobal st
  let tr0 := freeEv ++ [Event.connectWithTimeout ms.hostname ms.port timeoutGlobal, Event.setHandle]
  if ctx2.hasErr = true then
    { ret := -1, ctx := ctx2, store := st,
      trace := tr0 ++ [.logErr "Could not establish connection."] }
  else if ms.password ≠ "" then
    let cr := redisCommand ctx2 st (.auth ms.password)
    let tr1 := tr0 ++ [Event.logWarn "Authenticating.",
                       Event.cmd (.auth ms.password),
                       Event.logDebug (cmdText (.auth ms.password))]
    if cr.ctx.hasErr = true then
      { ret := -1, ctx := cr.ctx, store := cr.store,
        trace := tr1 ++ [.logErr "Unable to authenticate."] }
    else
      { ret := 1, ctx := cr.ctx, store := cr.store,
        trace := tr1 ++ [.logWarn "Authenticated."] }
  else
    { ret := 1, ctx := ctx2, store := st, trace := tr0 }

/-- Result of a dialplan read-style adapter: return code, output buffer,
handle, store, trace (variable bindings appear as `setVar` events). -/
structure FnResult where
  ret : Int
  buf : String
  ctx : Ctx
  store : Store
  trace : List Event

/-- Result of a dialplan write-style adapter (no output buffer). -/
structure WrResult where
  ret : Int
  ctx : Ctx
  store : Store
  trace : List Event

/-- Embeds `function_redis_read` (func_redis.c:232-269): zero the buffer,
reject an empty argument string, reject an argument count outside 1..2,
send GET (1 arg) or HGET (2 args), and on a non-nil non-error reply copy
`reply->str` into the buffer and bind REDIS_RESULT to it. -/
def function_redis_read (ms : ModuleState) (ctx : Ctx) (st : Store) (chan parse : String) : FnResult :=
  if parse = "" then
    { ret := -1, buf := "", ctx := ctx, store := st,
      trace := [.logWarn "REDIS requires an argument, REDIS(<key>) or REDIS(<key>,<hash>)"] }
  else
    let args := separateArgs parse
    if args.length < 1 ∨ 2 < args.length then
      { ret := -1, buf := "", ctx := ctx, store := st,
        trace := [.logWarn "REDIS requires an argument, REDIS(<key>) or REDIS(<key>,<hash>)"] }
    else
      let key := args.headD ""
      let c := if args.length = 1 then RedisCmd.get key else RedisCmd.hget key (args.getD 1 "")
      let cr := redisCommand ctx st c
      let tr := [Event.cmd c, Event.logDebug (cmdText c)]
      if cr.reply.isNone || cr.ctx.hasErr || isNilReply cr.reply then
        { ret := 0, buf := "", ctx := cr.ctx, store := cr.store,
          trace := tr ++ [.logDebug ("REDIS: Key " ++ key ++ " not found in database.")] }
      else
        { ret := 0, buf := (cr.reply.getD Reply.nil).strField, ctx := cr.ctx, store := cr.store,
          trace := tr ++ [Event.setVar chan "REDIS_RESULT" ((cr.reply.getD Reply.nil).strField)] }

/-- Embeds `function_redis_write` (func_redis.c:271-302): reject empty or
miscounted arguments, send SET (1 arg) or HSET (2 args) with the value, and
warn if the handle reports an error afterwards. -/
def function_redis_write (ms : ModuleState) (ctx : Ctx) (st : Store) (chan parse value : String) : WrResult :=
  if parse = "" then
    { ret := -1, ctx := ctx, store := st,
      trace := [.logWarn "REDIS requires an argument, REDIS(<key>)=<value> or REDIS(<key>,<hash>)=<value>"] }
  else
    let args := separateArgs parse
    if args.length < 1 ∨ 2 < args.length then
      { ret := -1, ctx := ctx, store := st,
        trace := [.logWarn "REDIS requires an argument, REDIS(<key>)=<value> or REDIS(<key>,<hash>)=<value>"] }
    else
      let c := if args.length = 1 then RedisCmd.set (args.headD "") value
               else RedisCmd.hset (args.headD "") (args.getD 1 "") value
      let cr := redisCommand ctx st c
      let tr := [Event.cmd c, Event.logDebug (cmdText c)]
      if cr.ctx.hasErr = true then
        { ret := 0, ctx := cr.ctx, store := cr.store,
          trace := tr ++ [.logWarn "REDIS: Error writing value to database."] }
      else
        { ret := 0, ctx := cr.ctx, store := cr.store, trace := tr }

/-- Embeds `function_redis_exists` (func_redis.c:310-342): zero the buffer,
reject empty input or an argument count other than 1, send EXISTS; if the
handle reports an error write "0", otherwise bind REDIS_RESULT to the
buffer's current contents -- still the empty string zeroed at entry -- and
then write "1" into the buffer.  The reply itself is never inspected. -/
def function_redis_exists (ms : ModuleState) (ctx : Ctx) (st : Store) (chan parse : String) : FnResult :=
  let buf0 := ""
  if parse = "" then
    { ret := -1, buf := buf0, ctx := ctx, store := st,
      trace := [.logWarn "REDIS_EXISTS requires one argument, REDIS(<key>)"] }
  else
    let args := separateArgs parse
    if args.length ≠ 1 then
      { ret := -1, buf := buf0, ctx := ctx, store := st,
        trace := [.logWarn "REDIS_EXISTS requires one argument, REDIS(<key>)"] }
    else
      let key := args.headD ""
      let cr := redisCommand ctx st (.existsCmd key)
      let tr := [Event.cmd (.existsCmd key), Event.logDebug (cmdText (.existsCmd key))]
      if cr.ctx.hasErr = true then
        { ret := 0, buf := "0", ctx := cr.ctx, store := cr.store, trace := tr }
      else
        { ret := 0, buf := "1", ctx := cr.ctx, store := cr.store,
          trace := tr ++ [Event.setVar chan "REDIS_RESULT" buf0] }

/-- Embeds `function_redis_delete` (func_redis.c:350-380): zero the buffer,
reject empty input or an argument count other than 1, send DEL, and log at
debug level if the handle reports an error.  Nothing is ever copied into
the buffer and no variable is bound. -/
def function_redis_delete (ms : ModuleState) (ctx : Ctx) (st : Store) (chan parse : String) : FnResult :=
  if parse = "" then
    { ret := -1, buf := "", ctx := ctx, store := st,
      trace := [.logWarn "REDIS_DELETE requires an argument, REDIS_DELETE(<key>)"] }
  else
    let args := separateArgs parse
    if args.length ≠ 1 then
      { ret := -1, buf := "", ctx := ctx, store := st,
        trace := [.logWarn "REDIS_DELETE requires an argument, REDIS_DELETE(<key>)"] }
    else
      let key := args.headD ""
      let cr := redisCommand ctx st (.del key)
      let tr := [Event.cmd (.del key), Event.logDebug (cmdText (.del key))]
      if cr.ctx.hasErr = true then
        { ret := 0, buf := "", ctx := cr.ctx, store := cr.store,
          trace := tr ++ [.logDebug ("REDIS_DELETE: Key " ++ key ++ " not found in database.")] }
      else
        { ret := 0, buf := "", ctx := cr.ctx, store := cr.store, trace := tr }

/-- Embeds `function_redis_delete_write` (func_redis.c:386-392): calls
`function_redis_delete` with a throwaway 128-byte buffer; the `value`
argument is never read. -/
def function_redis_delete_write (ms : ModuleState) (ctx : Ctx) (st : Store) (chan parse value : String) : WrResult :=
  let r := function_redis_delete ms ctx st chan parse
  { ret := r.ret, ctx := r.ctx, store := r.store, trace := r.trace }

/-- Embeds `function_redis_publish` (func_redis.c:400-432): reject empty
input or an argument count other than 1, send PUBLISH with the value; on a
clean handle bind REDIS_PUBLISH_RESULT to the decimal rendering of
`reply->integer`, otherwise log an error. -/
def function_redis_publish (ms : ModuleState) (ctx : Ctx) (st : Store) (chan parse value : String) : WrResult :=
  if parse = "" then
    { ret := -1, ctx := ctx, store := st,
      trace := [.logWarn "REDIS_PUBLISH requires one argument, REDIS_PUBLISH(<channel>)=<message>"] }
  else
    let args := separateArgs parse
    if args.length ≠ 1 then
      { ret := -1, ctx := ctx, store := st,
        trace := [.logWarn "REDIS_PUBLISH requires one argument, REDIS_PUBLISH(<channel>)=<message>"] }
    else
      let c := RedisCmd.publish (args.headD "") value
      let cr := redisCommand ctx st c
      let tr := [Event.cmd c, Event.logDebug (cmdText c)]
      if cr.ctx.hasErr = true then
        { ret := 0, ctx := cr.ctx, store := cr.store,
          trace := tr ++ [.logErr "REDIS_PUBLISH: Error publishing message"] }
      else
        { ret := 0, ctx := cr.ctx, store := cr.store,
          trace := tr ++ [Event.setVar chan "REDIS_PUBLISH_RESULT" (toString ((cr.reply.getD Reply.nil).intField))] }

/-- The CLI framework's return values (`CLI_SUCCESS` / `CLI_SHOWUSAGE`). -/
inductive CliRet where
  | success
  | showusage

/-- Result of a CLI handler: return value, handle, store, trace (printed
lines appear as `cliOut` events). -/
structure CliResult where
  ret : CliRet
  ctx : Ctx
  store : Store
  trace : List Event

/-- Pads a string with spaces to the given width (the C `%-50s` / `%-25s`
column formats of the show/hshow tables). -/
def padTo (n : Nat) (s : String) : String :=
  s ++ String.mk (List.replicate (n - s.length) ' ')

/-- The `elements` array of a KEYS/HKEYS reply.  The C dereferences the
reply pointer without a null check here; a missing reply is modelled as an
empty array. -/
def optElements : Option Reply → List Reply
  | some (.arr l) => l
  | _ => []

/-- Embeds `handle_cli_redis_set` (func_redis.c:439-470): 4 CLI words send
SET, 5 send HSET, anything else shows usage; prints an error line when the
handle reports an error, a created line otherwise. -/
def handle_cli_redis_set (ms : ModuleState) (ctx : Ctx) (st : Store) (argv : List String) : CliResult :=
  if argv.length < 4 ∨ 5 < argv.length then
    { ret := .showusage, ctx := ctx, store := st, trace := [] }
  else
    let c := if argv.length = 4 then RedisCmd.set (argv.getD 2 "") (argv.getD 3 "")
             else RedisCmd.hset (argv.getD 2 "") (argv.getD 3 "") (argv.getD 4 "")
    let cr := redisCommand ctx st c
    let tr := [Event.cmd c, Event.logDebug (cmdText c)]
    if cr.ctx.hasErr = true then
      { ret := .success, ctx := cr.ctx, store := cr.store,
        trace := tr ++ [.cliOut "Redis database error."] }
    else
      { ret := .success, ctx := cr.ctx, store := cr.store,
        trace := tr ++ [.cliOut "Redis database entry created."] }

/-- Embeds `handle_cli_redis_del` (func_redis.c:472-496): exactly 3 CLI
words (`redis del <key>`) send DEL; the does-not-exist line is printed when
the handle is NULL or reports an error, the removed line otherwise. -/
def handle_cli_redis_del (ms : ModuleState) (ctx : Ctx) (st : Store) (argv : List String) : CliResult :=
  if argv.length ≠ 3 then
    { ret := .showusage, ctx := ctx, store := st, trace := [] }
  else
    let cr := redisCommand ctx st (.del (argv.getD 2 ""))
    let tr := [Event.cmd (.del (argv.getD 2 "")), Event.logDebug (cmdText (.del (argv.getD 2 "")))]
    if cr.ctx.hasErr = true then
      { ret := .success, ctx := cr.ctx, store := cr.store,
        trace := tr ++ [.cliOut "Redis database entry does not exist."] }
    else
      { ret := .success, ctx := cr.ctx, store := cr.store,
        trace := tr ++ [.cliOut "Redis database entry removed."] }

/-- The per-key GET loop of `handle_cli_redis_show`: for each element of
the KEYS reply, issue GET and print one table line when a reply came back. -/
def cliGetLoop : Ctx → Store → List Reply → Ctx × Store × List Event
  | ctx, st, [] => (ctx, st, [])
  | ctx, st, e :: rest =>
      let key := e.strField
      let cr := redisCommand ctx st (.get key)
      let line : List Event :=
        match cr.reply with
        | some gr => [Event.cliOut (padTo 50 key ++ ": " ++ padTo 25 gr.strField)]
        | none => []
      let r := cliGetLoop cr.ctx cr.store rest
      (r.1, r.2.1, [Event.cmd (.get key), Event.logDebug (cmdText (.get key))] ++ line ++ r.2.2)

/-- Embeds `handle_cli_redis_show` (func_redis.c:498-545): `redis show`
sends `KEYS *`, `redis show <pattern>` sends `KEYS <pattern>`; then GETs
every returned key, printing a two-column table and a trailing count. -/
def handle_cli_redis_show (ms : ModuleState) (ctx : Ctx) (st : Store) (argv : List String) : CliResult :=
  if argv.length = 3 ∨ argv.length = 2 then
    let c := if argv.length = 3 then RedisCmd.keys (argv.getD 2 "") else RedisCmd.keys "*"
    let cr := redisCommand ctx st c
    let elems := optElements cr.reply
    let r := cliGetLoop cr.ctx cr.store elems
    { ret := .success, ctx := r.1, store := r.2.1,
      trace := [Event.cmd c, Event.logDebug (cmdText c)] ++ r.2.2
        ++ [.cliOut (toString elems.length ++ " results found.")] }
  else
    { ret := .showusage, ctx := ctx, store := st, trace := [] }

/-- The per-field HGET loop of `handle_cli_redis_hshow`. -/
def cliHGetLoop (hash : String) : Ctx → Store → List Reply → Ctx × Store × List Event
  | ctx, st, [] => (ctx, st, [])
  | ctx, st, e :: rest =>
      let fld := e.strField
      let cr := redisCommand ctx st (.hget hash fld)
      let line : List Event :=
        match cr.reply with
        | some gr => [Event.cliOut (padTo 50 fld ++ ": " ++ padTo 25 gr.strField)]
        | none => []
      let r := cliHGetLoop hash cr.ctx cr.store rest
      (r.1, r.2.1, [Event.cmd (.hget hash fld), Event.logDebug (cmdText (.hget hash fld))] ++ line ++ r.2.2)

/-- Embeds `handle_cli_redis_hshow` (func_redis.c:547-583): exactly 3 CLI
words send HKEYS, then HGET per returned field, same table format. -/
def handle_cli_redis_hshow (ms : ModuleState) (ctx : Ctx) (st : Store) (argv : List String) : CliResult :=
  if argv.length = 3 then
    let c := RedisCmd.hkeys (argv.getD 2 "")
    let cr := redisCommand ctx st c
    let elems := optElements cr.reply
    let r := cliHGetLoop (argv.getD 2 "") cr.ctx cr.store elems
    { ret := .success, ctx := r.1, store := r.2.1,
      trace := [Event.cmd c, Event.logDebug (cmdText c)] ++ r.2.2
        ++ [.cliOut (toString elems.length ++ " results found.")] }
  else
    { ret := .showusage, ctx := ctx, store := st, trace := [] }

/-- Embeds `unload_module` (func_redis.c:592-606): sends BGSAVE, frees the
handle, and unregisters the CLI entries and the four functions. -/
def unload_module (ms : ModuleState) (ctx : Ctx) (st : Store) : WrResult :=
  let cr := redisCommand ctx st .bgsave
  { ret := 0, ctx := Ctx.null, store := cr.store,
    trace := [Event.cmd .bgsave, Event.logDebug (cmdText .bgsave), Event.freeHandle] }

/-- The host platform's `AST_MODULE_LOAD_DECLINE` value. -/
def AST_MODULE_LOAD_DECLINE : Int := 1

/-- Result of `load_module`: its return value, the dialplan functions it
registered, the configuration globals, handle, store and trace. -/
structure LoadModuleResult where
  ret : Int
  registered : List String
  state : ModuleState
  ctx : Ctx
  store : Store
  trace : List Event

/-- Embeds `load_module` (func_redis.c:608-621): declines when either
`load_config` or `redis_connect` returns -1 (registering nothing),
otherwise registers the CLI entries and the four dialplan functions and
returns 0.  At initial load the global handle is NULL. -/
def load_module (prev : ModuleState) (cf : ConfFile) (st : Store) : LoadModuleResult :=
  let lr := load_config prev cf
  if lr.ret = -1 then
    { ret := AST_MODULE_LOAD_DECLINE, registered := [], state := lr.state,
      ctx := .null, store := st, trace := lr.trace }
  else
    let cr := redis_connect lr.state .null st
    if cr.ret = -1 then
      { ret := AST_MODULE_LOAD_DECLINE, registered := [], state := lr.state,
        ctx := cr.ctx, store := cr.store, trace := lr.trace ++ cr.trace }
    else
      { ret := 0,
        registered := ["REDIS", "REDIS_EXISTS", "REDIS_DELETE", "REDIS_PUBLISH"],
        state := lr.state, ctx := cr.ctx, store := cr.store,
        trace := lr.trace ++ cr.trace }

/-- Result of `reload`. -/
structure ReloadResult where
  ret : Int
  state : ModuleState
  ctx : Ctx
  store : Store
  trace : List Event

/-- Embeds `reload` (func_redis.c:623-630): logs, then `load_config`
followed by `redis_connect` on the current handle; declines if either
fails. -/
def reload (prev : ModuleState) (ctx : Ctx) (cf : ConfFile) (st : Store) : ReloadResult :=
  let lr := load_config prev cf
  if lr.ret = -1 then
    { ret := AST_MODULE_LOAD_DECLINE, state := lr.state, ctx := ctx, store := st,
      trace := Event.logWarn "Reloading." :: lr.trace }
  else
    let cr := redis_connect lr.state ctx st
    if cr.ret = -1 then
      { ret := AST_MODULE_LOAD_DECLINE, state := lr.state, ctx := cr.ctx, store := cr.store,
        trace := Event.logWarn "Reloading." :: (lr.trace ++ cr.trace) }
    else
      { ret := 0, state := lr.state, ctx := cr.ctx, store := cr.store,
        trace := Event.logWarn "Reloading." :: (lr.trace ++ cr.trace) }

/-- The six dialplan entry points, for stating per-adapter properties
uniformly (value accessor read/write, existence check, delete read/write,
publish). -/
inductive Adapter where
  | valueRead
  | valueWrite
  | existsChk
  | deleteRead
  | deleteWrite
  | publishW

/-- The argument counts each adapter accepts (spec 4.4: 1, or 1--2 for the
value accessor). -/
def allowedArgc (a : Adapter) (n : Nat) : Bool :=
  match a with
  | .valueRead => n == 1 || n == 2
  | .valueWrite => n == 1 || n == 2
  | _ => n == 1

/-- Runs one adapter and keeps its observables: return code, trace, store. -/
def runAdapter (a : Adapter) (ms : ModuleState) (ctx : Ctx) (st : Store)
    (chan parse value : String) : Int × List Event × Store :=
  match a with
  | .valueRead =>
      let r := function_redis_read ms ctx st chan parse
      (r.ret, r.trace, r.store)
  | .valueWrite =>
      let r := function_redis_write ms ctx st chan parse value
      (r.ret, r.trace, r.store)
  | .existsChk =>
      let r := function_redis_exists ms ctx st chan parse
      (r.ret, r.trace, r.store)
  | .deleteRead =>
      let r := function_redis_delete ms ctx st chan parse
      (r.ret, r.trace, r.store)
  | .deleteWrite =>
      let r := function_redis_delete_write ms ctx st chan parse value
      (r.ret, r.trace, r.store)
  | .publishW =>
      let r := function_redis_publish ms ctx st chan parse value
      (r.ret, r.trace, r.store)

/-- Fixture: a loadable config file with every key except `timeout`. -/
def confNoTimeout : ConfFile :=
  { status := true, hostname := some "10.0.0.1", port := some "6379",
    dbname := some "asterisk", password := some "", timeout := none }

/-- Fixture: a loadable config file with every key present, password "x". -/
def confPwX : ConfFile :=
  { status := true, hostname := some "10.0.0.1", port := some "6379",
    dbname := some "asterisk", password := some "x", timeout := some "5" }

/-- Fixture: a loadable config file with every key present, no password. -/
def confFull : ConfFile :=
  { status := true, hostname := some "10.0.0.1", port := some "6379",
    dbname := some "asterisk", password := some "", timeout := some "5" }

/-- Fixture: a reachable store holding exactly the key "k" with value "v". -/
def storeKV : Store :=
  { kv := [("k", "v")], hkv := [], okPasswords := [], subs := [], transportFail := false }

/-! ## Theorems -/

/-- Claim C1 (code bug): the timeout read from the configuration never
reaches the connect call.  With `timeout` absent the default "5" is parsed
into the shadowing local (`localTimeout = 5`), yet the connect call is made
with the zero-initialized const global: the trace records a 0-second
timeout, and 0 is not the configured 5. -/
theorem redis_connect_timeout_not_configured :
    (load_config initModuleState confNoTimeout).localTimeout = some 5
  ∧ (redis_connect (load_config initModuleState confNoTimeout).state Ctx.null emptyStore).trace
      = [Event.connectWithTimeout "10.0.0.1" 6379 0, Event.setHandle]
  ∧ timeoutGlobal = 0 ∧ (0 : Int) ≠ 5 :=
  ⟨rfl, rfl, rfl, by decide⟩

/-- Claim C2 (code bug): with a healthy handle and the key absent from the
store, the existence check still writes "1" to its output buffer, because
it only tests `redis->err` and never the EXISTS reply; the claim (and the
module's own XML documentation) require "0" here. -/
theorem function_redis_exists_absent_writes_one :
    kvLookup emptyStore.kv "missing" = none
  ∧ (function_redis_exists initModuleState (Ctx.conn 0) emptyStore "chan1" "missing").buf = "1"
  ∧ (function_redis_exists initModuleState (Ctx.conn 0) emptyStore "chan1" "missing").ret = 0 :=
  ⟨rfl, rfl, rfl⟩

/-- Claim C3 (code bug): a store that rejects the configured password "x"
answers AUTH with an error reply, which leaves `redis->err` at 0 -- the
only thing `redis_connect` checks -- so connect returns 1, `load_module`
returns success and all four dialplan functions are registered, contrary to
the claim that load fails and nothing is registered. -/
theorem load_module_ignores_auth_rejection :
    (storeReply emptyStore (RedisCmd.auth "x")).1 = Reply.error "ERR invalid password"
  ∧ (redis_connect (load_config initModuleState confPwX).state Ctx.null emptyStore).ret = 1
  ∧ (load_module initModuleState confPwX emptyStore).ret = 0
  ∧ (load_module initModuleState confPwX emptyStore).registered
      = ["REDIS", "REDIS_EXISTS", "REDIS_DELETE", "REDIS_PUBLISH"] :=
  ⟨rfl, rfl, rfl, rfl⟩

/-- Claim C4 (code bug): on a read invocation of REDIS_DELETE for a present
key "k" with value "v", the key is deleted but the output buffer stays
empty and no channel variable is bound -- DEL answers with an integer
count, and the function never copies anything into the buffer -- contrary
to the claim that the prior value "v" is returned. -/
theorem function_redis_delete_returns_no_value :
    kvLookup storeKV.kv "k" = some "v"
  ∧ (function_redis_delete initModuleState (Ctx.conn 0) storeKV "chan1" "k").buf = ""
  ∧ kvLookup (function_redis_delete initModuleState (Ctx.conn 0) storeKV "chan1" "k").store.kv "k" = none
  ∧ setVarEvents (function_redis_delete initModuleState (Ctx.conn 0) storeKV "chan1" "k").trace = []
  ∧ ("v" : String) ≠ "" :=
  ⟨rfl, rfl, rfl, rfl, by decide⟩

/-- Claim C6: the write-path invocation of REDIS_DELETE ignores its value
argument and matches the read-path invocation on the same argument string
in return code, trace (same command sent, same logging), resulting store
and resulting handle, for every channel, argument string and value. -/
theorem delete_write_matches_read (ms : ModuleState) (ctx : Ctx) (st : Store)
    (chan parse value : String) :
    (function_redis_delete_write ms ctx st chan parse value).ret
      = (function_redis_delete ms ctx st chan parse).ret
  ∧ (function_redis_delete_write ms ctx st chan parse value).trace
      = (function_redis_delete ms ctx st chan parse).trace
  ∧ (function_redis_delete_write ms ctx st chan parse value).store
      = (function_redis_delete ms ctx st chan parse).store
  ∧ (function_redis_delete_write ms ctx st chan parse value).ctx
      = (function_redis_delete ms ctx st chan parse).ctx :=
  ⟨rfl, rfl, rfl, rfl⟩

/-- Claim C7 counterexample: `redis del k` with key "k" absent from the
store and a healthy handle prints the removed line, not the does-not-exist
line the claim requires for an absent key. -/
theorem cli_del_absent_prints_removed :
    kvLookup emptyStore.kv "k" = none
  ∧ cliOutLines (handle_cli_redis_del initModuleState (Ctx.conn 0) emptyStore
      ["redis", "del", "k"]).trace = ["Redis database entry removed."] :=
  ⟨rfl, rfl⟩

/-- Claim C8 counterexample: in a concrete reload (previous handle live,
loadable config, reachable store), the handle free, the connect call and
the handle replacement all happen outside the lock-held region, so the
reconfiguration does not execute entirely under the lock. -/
theorem reload_mutations_outside_lock :
    (eventsOutsideLock (reload initModuleState (Ctx.conn 0) confFull emptyStore).trace 0).filter
        sharedMutation
      = [Event.freeHandle, Event.connectWithTimeout "10.0.0.1" 6379 0, Event.setHandle]
  ∧ ([Event.freeHandle, Event.connectWithTimeout "10.0.0.1" 6379 0, Event.setHandle] : List Event)
      ≠ [] :=
  ⟨rfl, by simp⟩

/-- Claim C5: every adapter, given an empty argument string or one whose
comma-field count is outside its allowed set (1, or 1--2 for the value
accessor), returns -1, sends no command to the store, and leaves the store
unchanged. -/
theorem adapter_arg_validation (a : Adapter) (ms : ModuleState) (ctx : Ctx) (st : Store)
    (chan parse value : String)
    (h : parse = "" ∨ allowedArgc a (separateArgs parse).length = false) :
    (runAdapter a ms ctx st chan parse value).1 = -1
  ∧ cmdEvents (runAdapter a ms ctx st chan parse value).2.1 = []
  ∧ (runAdapter a ms ctx st chan parse value).2.2 = st := by
  rcases h with hp | hl
  · subst hp
    cases a <;> exact ⟨rfl, rfl, rfl⟩
  · by_cases hp : parse = ""
    · subst hp
      have h1 : (separateArgs "").length = 1 := rfl
      rw [h1] at hl
      cases a <;> simp [allowedArgc] at hl
    · cases a with
      | valueRead =>
        simp only [allowedArgc, Bool.or_eq_false_iff, beq_eq_false_iff_ne] at hl
        have hc : (separateArgs parse).length < 1 ∨ 2 < (separateArgs parse).length := by
          omega
        simp only [runAdapter, function_redis_read]
        rw [if_neg hp, if_pos hc]
        exact ⟨rfl, rfl, rfl⟩
      | valueWrite =>
        simp only [allowedArgc, Bool.or_eq_false_iff, beq_eq_false_iff_ne] at hl
        have hc : (separateArgs parse).length < 1 ∨ 2 < (separateArgs parse).length := by
          omega
        simp only [runAdapter, function_redis_write]
        rw [if_neg hp, if_pos hc]
        exact ⟨rfl, rfl, rfl⟩
      | existsChk =>
        simp only [allowedArgc, beq_eq_false_iff_ne] at hl
        simp only [runAdapter, function_redis_exists]
        rw [if_neg hp, if_pos hl]
        exact ⟨rfl, rfl, rfl⟩
      | deleteRead =>
        simp only [allowedArgc, beq_eq_false_iff_ne] at hl
        simp only [runAdapter, function_redis_delete]
        rw [if_neg hp, if_pos hl]
        exact ⟨rfl, rfl, rfl⟩
      | deleteWrite =>
        simp only [allowedArgc, beq_eq_false_iff_ne] at hl
        simp only [runAdapter, function_redis_delete_write, function_redis_delete]
        rw [if_neg hp, if_pos hl]
        exact ⟨rfl, rfl, rfl⟩
      | publishW =>
        simp only [allowedArgc, beq_eq_false_iff_ne] at hl
        simp only [runAdapter, function_redis_publish]
        rw [if_neg hp, if_pos hl]
        exact ⟨rfl, rfl, rfl⟩

/-- Claim C5 witness: the existence check on the three-field argument
string "a,b,c" is rejected: -1, no command sent, store untouched. -/
theorem adapter_arg_validation_witness :
    (runAdapter Adapter.existsChk initModuleState (Ctx.conn 0) emptyStore "chan1" "a,b,c" "v").1 = -1
  ∧ cmdEvents (runAdapter Adapter.existsChk initModuleState (Ctx.conn 0) emptyStore "chan1" "a,b,c" "v").2.1 = []
  ∧ (runAdapter Adapter.existsChk initModuleState (Ctx.conn 0) emptyStore "chan1" "a,b,c" "v").2.2 = emptyStore :=
  adapter_arg_validation Adapter.existsChk initModuleState (Ctx.conn 0) emptyStore "chan1" "a,b,c" "v"
    (Or.inr rfl)

/-- Claim C7 amended: `redis del <key>` with exactly one argument always
issues DEL, and the line it prints depends only on whether the handle
reports an error afterwards -- the removed line on a clean handle (whether
or not the key existed), the does-not-exist line exactly on a NULL or
errored handle. -/
theorem cli_del_reports_handle_error_only (ms : ModuleState) (ctx : Ctx) (st : Store) (key : String) :
    cmdEvents (handle_cli_redis_del ms ctx st ["redis", "del", key]).trace = [RedisCmd.del key]
  ∧ cliOutLines (handle_cli_redis_del ms ctx st ["redis", "del", key]).trace
      = [if (handle_cli_redis_del ms ctx st ["redis", "del", key]).ctx.hasErr = true
         then "Redis database entry does not exist."
         else "Redis database entry removed."] := by
  obtain ⟨kv, hkv, ok, subs, tf⟩ := st
  cases ctx with
  | null => exact ⟨rfl, rfl⟩
  | conn e =>
      by_cases he : e = 0
      · subst he
        cases tf
        · exact ⟨rfl, rfl⟩
        · exact ⟨rfl, rfl⟩
      · have hb : Ctx.hasErr (Ctx.conn e) = true := by
          simp [Ctx.hasErr, he]
        refine ⟨?_, ?_⟩ <;>
          simp [handle_cli_redis_del, redisCommand, if_pos he, hb, cmdEvents, cliOutLines]

set_option maxHeartbeats 2000000 in
/-- Claim C8 amended: the lock brackets only the configuration-field writes
of `load_config` (no configuration write happens outside it), while
`redis_connect` -- the handle free and replacement -- performs no locking
at all. -/
theorem lock_scope (prev : ModuleState) (ms : ModuleState) (ctx : Ctx) (cf : ConfFile) (st : Store) :
    (redis_connect ms ctx st).trace.filter isLockEvent = []
  ∧ (eventsOutsideLock (load_config prev cf).trace 0).filter isConfigWrite = [] := by
  constructor
  · obtain ⟨mh, mp, md, mw⟩ := ms
    obtain ⟨kv, hkv, ok, subs, tf⟩ := st
    by_cases hw : mw = "" <;> cases tf <;> cases ctx <;>
      simp [redis_connect, redisConnectWithTimeout, redisCommand, Ctx.hasErr, hw,
        isLockEvent, List.filter_append, List.filter]
  · obtain ⟨status, ho, po, dbo, pwo, tmo⟩ := cf
    cases status
    · rfl
    · cases ho <;> cases po <;> cases dbo <;> cases pwo <;> cases tmo <;> rfl

/-- Claim C9: whenever the handle reports no error after the EXISTS
command, a well-formed one-argument existence check binds exactly one
channel variable, REDIS_RESULT, and binds it to the empty string (the
zeroed output buffer), never to the stored value of the key. -/
theorem exists_binds_empty_result (ms : ModuleState) (ctx : Ctx) (st : Store) (chan key : String)
    (hkey : key ≠ "") (hone : (separateArgs key).length = 1)
    (hok : (function_redis_exists ms ctx st chan key).ctx.hasErr = false) :
    setVarEvents (function_redis_exists ms ctx st chan key).trace = [("REDIS_RESULT", "")] := by
  obtain ⟨kv, hkv, ok, subs, tf⟩ := st
  cases ctx with
  | null =>
      simp [function_redis_exists, hkey, hone, redisCommand, Ctx.hasErr] at hok
  | conn e =>
      by_cases he : e = 0
      · subst he
        cases tf
        · simp [function_redis_exists, hkey, hone, redisCommand, Ctx.hasErr, setVarEvents]
        · simp [function_redis_exists, hkey, hone, redisCommand, Ctx.hasErr] at hok
      · simp [function_redis_exists, hkey, hone, redisCommand, Ctx.hasErr, he] at hok

/-- Claim C9 witness: on a store holding k = v with a healthy handle, the
existence check on "k" binds REDIS_RESULT to "" (not to "v"). -/
theorem exists_binds_empty_result_witness :
    setVarEvents (function_redis_exists initModuleState (Ctx.conn 0) storeKV "chan1" "k").trace
      = [("REDIS_RESULT", "")] :=
  exists_binds_empty_result initModuleState (Ctx.conn 0) storeKV "chan1" "k"
    (by decide) rfl rfl

theorem isSelect_cmd_keys (p : String) : isSelectEvent (Event.cmd (RedisCmd.keys p)) = false := rfl

theorem isSelect_cmd_get (k : String) : isSelectEvent (Event.cmd (RedisCmd.get k)) = false := rfl

theorem isSelect_cmd_hget (k f : String) : isSelectEvent (Event.cmd (RedisCmd.hget k f)) = false := rfl

theorem isSelect_cmd_hkeys (k : String) : isSelectEvent (Event.cmd (RedisCmd.hkeys k)) = false := rfl

theorem isSelect_logDebug (m : String) : isSelectEvent (Event.logDebug m) = false := rfl

theorem isSelect_cliOut (s : String) : isSelectEvent (Event.cliOut s) = false := rfl

/-- The read adapter never constructs a SELECT command. -/
theorem read_no_select (ms : ModuleState) (ctx : Ctx) (st : Store) (chan parse : String) :
    (function_redis_read ms ctx st chan parse).trace.filter isSelectEvent = [] := by
  simp only [function_redis_read]
  repeat' split
  all_goals rfl

/-- The write adapter never constructs a SELECT command. -/
theorem write_no_select (ms : ModuleState) (ctx : Ctx) (st : Store) (chan parse value : String) :
    (function_redis_write ms ctx st chan parse value).trace.filter isSelectEvent = [] := by
  simp only [function_redis_write]
  repeat' split
  all_goals rfl

/-- The existence-check adapter never constructs a SELECT command. -/
theorem exists_no_select (ms : ModuleState) (ctx : Ctx) (st : Store) (chan parse : String) :
    (function_redis_exists ms ctx st chan parse).trace.filter isSelectEvent = [] := by
  simp only [function_redis_exists]
  repeat' split
  all_goals rfl

/-- The delete adapter never constructs a SELECT command. -/
theorem delete_no_select (ms : ModuleState) (ctx : Ctx) (st : Store) (chan parse : String) :
    (function_redis_delete ms ctx st chan parse).trace.filter isSelectEvent = [] := by
  simp only [function_redis_delete]
  repeat' split
  all_goals rfl

/-- The delete write wrapper never constructs a SELECT command. -/
theorem delete_write_no_select (ms : ModuleState) (ctx : Ctx) (st : Store) (chan parse value : String) :
    (function_redis_delete_write ms ctx st chan parse value).trace.filter isSelectEvent = [] :=
  delete_no_select ms ctx st chan parse

/-- The publish adapter never constructs a SELECT command. -/
theorem publish_no_select (ms : ModuleState) (ctx : Ctx) (st : Store) (chan parse value : String) :
    (function_redis_publish ms ctx st chan parse value).trace.filter isSelectEvent = [] := by
  simp only [function_redis_publish]
  repeat' split
  all_goals rfl

/-- The connect step never constructs a SELECT command. -/
theorem connect_no_select (ms : ModuleState) (ctx : Ctx) (st : Store) :
    (redis_connect ms ctx st).trace.filter isSelectEvent = [] := by
  simp only [redis_connect]
  repeat' split
  all_goals rfl

/-- The CLI set handler never constructs a SELECT command. -/
theorem cli_set_no_select (ms : ModuleState) (ctx : Ctx) (st : Store) (argv : List String) :
    (handle_cli_redis_set ms ctx st argv).trace.filter isSelectEvent = [] := by
  simp only [handle_cli_redis_set]
  repeat' split
  all_goals rfl

/-- The CLI del handler never constructs a SELECT command. -/
theorem cli_del_no_select (ms : ModuleState) (ctx : Ctx) (st : Store) (argv : List String) :
    (handle_cli_redis_del ms ctx st argv).trace.filter isSelectEvent = [] := by
  simp only [handle_cli_redis_del]
  repeat' split
  all_goals rfl

/-- The GET loop of the CLI show handler never constructs a SELECT command. -/
theorem cliGetLoop_no_select (l : List Reply) : ∀ (ctx : Ctx) (st : Store),
    ((cliGetLoop ctx st l).2.2).filter isSelectEvent = [] := by
  induction l with
  | nil => intro ctx st; rfl
  | cons e rest ih =>
      intro ctx st
      rcases hr : (redisCommand ctx st (RedisCmd.get e.strField)).reply with _ | gr <;>
        simp [cliGetLoop, hr, List.filter_append, isSelect_cmd_get, isSelect_logDebug,
          isSelect_cliOut, ih]

/-- The HGET loop of the CLI hshow handler never constructs a SELECT command. -/
theorem cliHGetLoop_no_select (hash : String) (l : List Reply) : ∀ (ctx : Ctx) (st : Store),
    ((cliHGetLoop hash ctx st l).2.2).filter isSelectEvent = [] := by
  induction l with
  | nil => intro ctx st; rfl
  | cons e rest ih =>
      intro ctx st
      rcases hr : (redisCommand ctx st (RedisCmd.hget hash e.strField)).reply with _ | gr <;>
        simp [cliHGetLoop, hr, List.filter_append, isSelect_cmd_hget, isSelect_logDebug,
          isSelect_cliOut, ih]

/-- The CLI show handler never constructs a SELECT command. -/
theorem cli_show_no_select (ms : ModuleState) (ctx : Ctx) (st : Store) (argv : List String) :
    (handle_cli_redis_show ms ctx st argv).trace.filter isSelectEvent = [] := by
  simp only [handle_cli_redis_show]
  repeat' split
  all_goals
    simp [List.filter_append, cliGetLoop_no_select, isSelect_cmd_keys, isSelect_logDebug,
      isSelect_cliOut]

/-- The CLI hshow handler never constructs a SELECT command. -/
theorem cli_hshow_no_select (ms : ModuleState) (ctx : Ctx) (st : Store) (argv : List String) :
    (handle_cli_redis_hshow ms ctx st argv).trace.filter isSelectEvent = [] := by
  simp only [handle_cli_redis_hshow]
  repeat' split
  all_goals
    simp [List.filter_append, cliHGetLoop_no_select, isSelect_cmd_hkeys, isSelect_logDebug,
      isSelect_cliOut]

/-- The unload step never constructs a SELECT command. -/
theorem unload_no_select (ms : ModuleState) (ctx : Ctx) (st : Store) :
    (unload_module ms ctx st).trace.filter isSelectEvent = [] := rfl

/-- Claim C10: the loaded database name is dead state.  For any two module
configurations differing only in `dbname`, the connect step, every adapter,
every CLI handler and the unload step produce identical results (identical
commands, traces, stores, handles and return values), and none of them ever
issues a SELECT command. -/
theorem dbname_noninterference (ms : ModuleState) (d : String) (ctx : Ctx) (st : Store)
    (chan parse value : String) (argv : List String) :
    (redis_connect { ms with dbname := d } ctx st = redis_connect ms ctx st
      ∧ function_redis_read { ms with dbname := d } ctx st chan parse
          = function_redis_read ms ctx st chan parse
      ∧ function_redis_write { ms with dbname := d } ctx st chan parse value
          = function_redis_write ms ctx st chan parse value
      ∧ function_redis_exists { ms with dbname := d } ctx st chan parse
          = function_redis_exists ms ctx st chan parse
      ∧ function_redis_delete { ms with dbname := d } ctx st chan parse
          = function_redis_delete ms ctx st chan parse
      ∧ function_redis_delete_write { ms with dbname := d } ctx st chan parse value
          = function_redis_delete_write ms ctx st chan parse value
      ∧ function_redis_publish { ms with dbname := d } ctx st chan parse value
          = function_redis_publish ms ctx st chan parse value
      ∧ handle_cli_redis_set { ms with dbname := d } ctx st argv
          = handle_cli_redis_set ms ctx st argv
      ∧ handle_cli_redis_del { ms with dbname := d } ctx st argv
          = handle_cli_redis_del ms ctx st argv
      ∧ handle_cli_redis_show { ms with dbname := d } ctx st argv
          = handle_cli_redis_show ms ctx st argv
      ∧ handle_cli_redis_hshow { ms with dbname := d } ctx st argv
          = handle_cli_redis_hshow ms ctx st argv
      ∧ unload_module { ms with dbname := d } ctx st = unload_module ms ctx st)
  ∧ ((redis_connect ms ctx st).trace.filter isSelectEvent = []
      ∧ (function_redis_read ms ctx st chan parse).trace.filter isSelectEvent = []
      ∧ (function_redis_write ms ctx st chan parse value).trace.filter isSelectEvent = []
      ∧ (function_redis_exists ms ctx st chan parse).trace.filter isSelectEvent = []
      ∧ (function_redis_delete ms ctx st chan parse).trace.filter isSelectEvent = []
      ∧ (function_redis_delete_write ms ctx st chan parse value).trace.filter isSelectEvent = []
      ∧ (function_redis_publish ms ctx st chan parse value).trace.filter isSelectEvent = []
      ∧ (handle_cli_redis_set ms ctx st argv).trace.filter isSelectEvent = []
      ∧ (handle_cli_redis_del ms ctx st argv).trace.filter isSelectEvent = []
      ∧ (handle_cli_redis_show ms ctx st argv).trace.filter isSelectEvent = []
      ∧ (handle_cli_redis_hshow ms ctx st argv).trace.filter isSelectEvent = []
      ∧ (unload_module ms ctx st).trace.filter isSelectEvent = []) := by
  obtain ⟨mh, mp, md, mw⟩ := ms
  exact ⟨⟨rfl, rfl, rfl, rfl, rfl, rfl, rfl, rfl, rfl, rfl, rfl, rfl⟩,
    connect_no_select _ _ _, read_no_select _ _ _ _ _, write_no_select _ _ _ _ _ _,
    exists_no_select _ _ _ _ _, delete_no_select _ _ _ _ _, delete_write_no_select _ _ _ _ _ _,
    publish_no_select _ _ _ _ _ _, cli_set_no_select _ _ _ _, cli_del_no_select _ _ _ _,
    cli_show_no_select _ _ _ _, cli_hshow_no_select _ _ _ _, unload_no_select _ _ _⟩

end FuncRedis
